import Mathlib

/-!
Shallow embedding of `src/app.py` (a Streamlit chat front end over a read-only
SQLite database), covering the parts of the program the specification talks
about: the response-rendering dispatch (app.py lines 183-197), the query
submission handler (lines 166-200), the read-only database configuration
(lines 137-144) and the startup key check (lines 129-134).

External library behaviour that the program relies on is modelled from the
libraries' documented semantics and clearly marked as such in doc comments:
`pandas.DataFrame` construction from a list of tuples, `sqlite3.connect` with
a `mode=ro` URI, and `langchain_groq.ChatGroq` credential validation.
-/

namespace SQLChat

/-- A Python scalar value as it appears inside a result row. -/
inductive PyVal where
  | int : Int → PyVal
  | str : String → PyVal
deriving DecidableEq, Repr

/-- An element of a Python list response: either a tuple of values or some
non-tuple object (the `isinstance(i, tuple)` test in app.py line 188
distinguishes exactly these two cases). -/
inductive PyItem where
  | tup : List PyVal → PyItem
  | nontup : PyVal → PyItem
deriving DecidableEq, Repr

/-- The shape of the value returned by `agent.run` as dispatched on in
app.py lines 183-197: a string, a list, or anything else. -/
inductive Response where
  | str : String → Response
  | list : List PyItem → Response
  | other : Response
deriving DecidableEq, Repr

/-- Whether a list element is a tuple (`isinstance(i, tuple)`). -/
def PyItem.isTup : PyItem → Bool
  | .tup _ => true
  | .nontup _ => false

/-- The fields of a tuple element; for a non-tuple element (never reached
behind the all-tuples guard) the element itself as a singleton row. -/
def PyItem.fields : PyItem → List PyVal
  | .tup vs => vs
  | .nontup v => [v]

/-- A cell of a rendered data frame: an original value, or the `None`
padding pandas inserts for rows shorter than the frame width. -/
inductive Cell where
  | val : PyVal → Cell
  | none : Cell
deriving DecidableEq, Repr

/-- The inferred width pandas uses for a list of tuples: the maximum row
length (0 for no rows). -/
def maxRowLen (rows : List (List PyVal)) : Nat :=
  rows.foldr (fun r m => max r.length m) 0

/-- Pad one row with `None` cells up to width `k`. -/
def padRow (k : Nat) (r : List PyVal) : List Cell :=
  r.map Cell.val ++ List.replicate (k - r.length) Cell.none

/-- Modelled from the documented behaviour of `pandas.DataFrame(rows, columns=cols)`
on a list of tuples: the width is inferred as the maximum tuple length, rows
shorter than the width are padded with `None`, and a `columns` argument whose
length differs from the inferred width raises
`ValueError: {n} columns passed, passed data had {k} columns`. -/
def dataFrame (rows : List (List PyVal)) (cols : List String) :
    Except String (List (List Cell)) :=
  let k := maxRowLen rows
  if cols.length = k then
    Except.ok (rows.map (padRow k))
  else
    Except.error (toString cols.length ++ " columns passed, passed data had "
      ++ toString k ++ " columns")

/-- One visible element produced inside the assistant chat message. -/
inductive View where
  | text : String → View
  | grid : List String → List (List Cell) → View
  | balloons : View
deriving DecidableEq, Repr

/-- The literal fallback text written for a list that is not treated as
tabular (app.py line 195). -/
def notTabularNotice : String := "The response is not in tabular format."

/-- The literal fallback text written for a response that is neither a
string nor a list (app.py line 197). -/
def unexpectedNotice : String := "Unexpected response format."

/-- The header synthesis of app.py line 190:
`headers = [f"Column {i+1}" for i in range(len(response[0]))]`, where
`response[0]` is the first row. -/
def tableHeaders (rows : List (List PyVal)) : List String :=
  (List.range (rows.headD []).length).map (fun i => "Column " ++ toString (i + 1))

/-- The tabular branch of app.py lines 189-193: build the data frame from
the rows with the synthesized headers and show it as a grid followed by
balloons; an exception from the `pd.DataFrame` call propagates. -/
def renderTable (items : List PyItem) : Except String (List View) :=
  match dataFrame (items.map PyItem.fields)
      (tableHeaders (items.map PyItem.fields)) with
  | .ok cells =>
    Except.ok [View.grid (tableHeaders (items.map PyItem.fields)) cells,
      View.balloons]
  | .error e => Except.error e

/-- The response-rendering dispatch of app.py lines 183-197.  A `str`
response is written verbatim; a `list` response is rendered as a data frame
with synthesized headers when it is non-empty and every element is a tuple,
and otherwise falls back to the "not tabular" notice; any other object falls
back to the "unexpected format" notice.  The result is an `Except` because
the `pd.DataFrame` call inside the tabular branch can raise. -/
def renderResponse (r : Response) : Except String (List View) :=
  match r with
  | .str s => Except.ok [View.text s]
  | .list items =>
    if items.all PyItem.isTup && !items.isEmpty then renderTable items
    else Except.ok [View.text notTabularNotice]
  | .other => Except.ok [View.text unexpectedNotice]

/-- A chat role, as stored in `st.session_state.messages`. -/
inductive Role where
  | user
  | assistant
deriving DecidableEq, Repr

/-- One entry of `st.session_state.messages`: a role together with the
content that was appended.  The assistant entry appended at app.py line 180
stores the raw agent response (which need not be a string), so the content
field carries a `Response`; user turns store their text as `Response.str`. -/
structure Msg where
  role : Role
  content : Response
deriving DecidableEq, Repr

/-- The chat history held in session state. -/
abbrev History := List Msg

/-- The initial history installed at app.py lines 158-159. -/
def initialHistory : History :=
  [⟨Role.assistant, Response.str "How can I help you?"⟩]

/-- A visible side effect of processing one submission. -/
inductive Effect where
  | userEcho : String → Effect
  | view : View → Effect
  | errorNotice : String → Effect
deriving DecidableEq, Repr

/-- The query submission handler of app.py lines 166-200 for one script run.
The input models `st.chat_input`: `none` when nothing was submitted, and a
possibly empty string otherwise; a falsy input (`if user_query:`) leaves the
session untouched.  Otherwise the user turn is appended and echoed, the
agent is invoked (modelled as a function returning either a response or the
message of a raised exception), on success the assistant turn is appended
with the raw response before any rendering happens, and any exception from
the agent call or from rendering is caught by the `except` clause and shown
as `st.error("An error occurred: " + str(e))`. -/
def handleSubmission (agent : String → Except String Response)
    (hist : History) (input : Option String) : History × List Effect :=
  match input with
  | Option.none => (hist, [])
  | Option.some q =>
    if q = "" then (hist, [])
    else
      let hist1 := hist ++ [⟨Role.user, Response.str q⟩]
      match agent q with
      | Except.error e =>
        (hist1, [Effect.userEcho q, Effect.errorNotice ("An error occurred: " ++ e)])
      | Except.ok resp =>
        let hist2 := hist1 ++ [⟨Role.assistant, resp⟩]
        match renderResponse resp with
        | Except.ok views => (hist2, Effect.userEcho q :: views.map Effect.view)
        | Except.error e =>
          (hist2, [Effect.userEcho q, Effect.errorNotice ("An error occurred: " ++ e)])

/-- A SQLite connection descriptor: the resolved target and the access mode
requested through the URI query string (`"rwc"` when no mode is given). -/
structure SqliteConn where
  target : String
  mode : String
deriving DecidableEq, Repr

/-- Split a character list at every occurrence of the separator character. -/
def splitOnChar (c : Char) : List Char → List (List Char)
  | [] => [[]]
  | a :: rest =>
    if a = c then [] :: splitOnChar c rest
    else
      match splitOnChar c rest with
      | [] => [[a]]
      | g :: gs => (a :: g) :: gs

/-- Rejoin character-list groups with the given separator character. -/
def joinChar (c : Char) : List (List Char) → List Char
  | [] => []
  | [g] => g
  | g :: gs => g ++ c :: joinChar c gs

/-- Split a character list into a key and a value at the first `=`. -/
def splitParam : List Char → List Char × List Char
  | [] => ([], [])
  | a :: rest =>
    if a = '=' then ([], rest)
    else ((splitParam rest).1.cons a, (splitParam rest).2)

/-- Modelled from the documented behaviour of `sqlite3.connect(uri, uri=True)`:
everything after the first `?` is the query string, its parameters are
separated by `&`, and the `mode` parameter (defaulting to `"rwc"`) selects
the access mode of the connection. -/
def sqliteConnect (uri : String) : SqliteConn :=
  match splitOnChar '?' uri.toList with
  | [] => ⟨uri, "rwc"⟩
  | t :: [] => ⟨String.mk t, "rwc"⟩
  | t :: rest =>
    let params := (splitOnChar '&' (joinChar '?' rest)).map splitParam
    match params.find? fun p => p.1 = "mode".toList with
    | Option.some p => ⟨String.mk t, String.mk p.2⟩
    | Option.none => ⟨String.mk t, "rwc"⟩

/-- The database file path used at app.py line 139,
`(Path(__file__).parent / "analytics_db").absolute()`: the model uses the
file name itself for the resolved path, which like any ordinary filesystem
path contains no URI metacharacter. -/
def dbfilepath : String := "analytics_db"

/-- The connection URI built at app.py line 140: `f"file:{dbfilepath}?mode=ro"`. -/
def connectUri (path : String) : String := "file:" ++ path ++ "?mode=ro"

/-- The `configure_db` function of app.py lines 137-141: every raw connection
the SQLAlchemy engine creates comes from the `creator` lambda, i.e. from
`sqlite3.connect(f"file:{dbfilepath}?mode=ro", uri=True)`, so the handle is
the read-only URI connection. -/
def configure_db : SqliteConn := sqliteConnect (connectUri dbfilepath)

/-- A SQL statement, classified by whether executing it writes to the
database. -/
inductive Stmt where
  | select : String → Stmt
  | mutate : String → Stmt
deriving DecidableEq, Repr

/-- Modelled from the documented behaviour of SQLite: a connection opened
with `mode=ro` rejects any statement that would write with
`OperationalError: attempt to write a readonly database`, while read
statements succeed. -/
def execStmt (c : SqliteConn) : Stmt → Except String Unit
  | .select _ => Except.ok ()
  | .mutate _ =>
    if c.mode = "ro" then Except.error "attempt to write a readonly database"
    else Except.ok ()

/-- The result of one startup run of the script (app.py lines 129-166):
which `st.error` notices were emitted, whether the run was aborted by an
uncaught exception, whether the chat input surface (line 166) was reached,
and the installed session history. -/
structure Startup where
  notices : List String
  crashed : Bool
  surfaceShown : Bool
  history : History
deriving DecidableEq, Repr

/-- Modelled from the documented behaviour of `langchain_groq.ChatGroq`
construction (app.py line 134): the client validates that an API key is
available (the explicit `groq_api_key` argument, falling back to the
`GROQ_API_KEY` environment variable, both read from the same environment
here) and raises when none is; a falsy key counts as missing. -/
def chatGroqInit (key : Option String) : Except String Unit :=
  match key with
  | Option.none => Except.error "Did not find groq_api_key"
  | Option.some k => if k = "" then Except.error "Did not find groq_api_key" else Except.ok ()

/-- The startup sequence of app.py lines 129-166 as a function of the
`GROQ_API_KEY` environment value: line 130-131 shows an error notice when
the key is falsy, line 134 constructs the LLM client (which raises when the
key is missing, aborting the script run before the history is installed and
before the chat input at line 166 is rendered). -/
def startup (envKey : Option String) : Startup :=
  let notices :=
    match envKey with
    | Option.none => ["GROQ_API_KEY not found in .env file"]
    | Option.some k => if k = "" then ["GROQ_API_KEY not found in .env file"] else []
  match chatGroqInit envKey with
  | Except.error _ =>
    { notices := notices, crashed := true, surfaceShown := false, history := [] }
  | Except.ok _ =>
    { notices := notices, crashed := false, surfaceShown := true,
      history := initialHistory }

/-! ## Helper lemmas -/

theorem maxRowLen_cons (r : List PyVal) (rs : List (List PyVal)) :
    maxRowLen (r :: rs) = max r.length (maxRowLen rs) := rfl

theorem maxRowLen_const (rows : List (List PyVal)) (k : Nat) (hne : rows ≠ [])
    (h : ∀ r ∈ rows, r.length = k) : maxRowLen rows = k := by
  induction rows with
  | nil => exact absurd rfl hne
  | cons r rs ih =>
    cases rs with
    | nil =>
      simp [maxRowLen_cons, maxRowLen, h r (List.mem_cons_self r [])]
    | cons r2 rs2 =>
      rw [maxRowLen_cons, h r (List.mem_cons_self r (r2 :: rs2)),
        ih (List.cons_ne_nil r2 rs2) (fun x hx => h x (List.mem_cons_of_mem r hx)),
        Nat.max_self]

theorem padRow_exact (k : Nat) (r : List PyVal) (h : r.length = k) :
    padRow k r = r.map Cell.val := by
  simp [padRow, h, Nat.sub_self]

theorem map_padRow_exact (k : Nat) (rows : List (List PyVal))
    (h : ∀ r ∈ rows, r.length = k) :
    rows.map (padRow k) = rows.map (fun r => r.map Cell.val) := by
  induction rows with
  | nil => rfl
  | cons r rs ih =>
    simp only [List.map_cons]
    rw [padRow_exact k r (h r (List.mem_cons_self r rs)),
      ih (fun x hx => h x (List.mem_cons_of_mem r hx))]

theorem all_isTup_of_map_tup (rows : List (List PyVal)) :
    (rows.map PyItem.tup).all PyItem.isTup = true := by
  rw [List.all_eq_true]
  intro x hx
  rcases List.mem_map.mp hx with ⟨r, _, rfl⟩
  rfl

theorem map_fields_map_tup (rows : List (List PyVal)) :
    (rows.map PyItem.tup).map PyItem.fields = rows := by
  rw [List.map_map]
  exact List.map_id rows

theorem isEmpty_false_of_ne_nil {α : Type} {l : List α} (h : l ≠ []) :
    l.isEmpty = false := by
  cases l with
  | nil => exact absurd rfl h
  | cons a l => rfl

theorem renderResponse_list_tabular (items : List PyItem)
    (hall : items.all PyItem.isTup = true) (hne : items ≠ []) :
    renderResponse (Response.list items) = renderTable items := by
  have hemp : items.isEmpty = false := isEmpty_false_of_ne_nil hne
  simp [renderResponse, hall, hemp]

/-- The tabular branch (taken exactly when the list is non-empty and all of
its elements are tuples) yields either a grid view or a raised exception,
never a plain-text fallback view. -/
theorem renderResponse_tabular_shape (items : List PyItem)
    (hall : items.all PyItem.isTup = true) (hne : items ≠ []) :
    (∃ hdrs cells, renderResponse (Response.list items)
        = Except.ok [View.grid hdrs cells, View.balloons]) ∨
    ∃ e, renderResponse (Response.list items) = Except.error e := by
  rw [renderResponse_list_tabular items hall hne]
  cases hdf : dataFrame (items.map PyItem.fields)
      (tableHeaders (items.map PyItem.fields)) with
  | ok cells =>
    exact Or.inl ⟨tableHeaders (items.map PyItem.fields), cells,
      by rw [renderTable, hdf]⟩
  | error e =>
    exact Or.inr ⟨e, by rw [renderTable, hdf]⟩

/-! ## Claims -/

/-- C6: a string response returned by the agent is rendered verbatim as
plain assistant message content and appended to the session history as an
assistant turn. -/
theorem string_response_rendered_verbatim (hist : History) (q s : String)
    (agent : String → Except String Response) (hq : q ≠ "")
    (hagent : agent q = Except.ok (Response.str s)) :
    handleSubmission agent hist (Option.some q)
      = (hist ++ [⟨Role.user, Response.str q⟩, ⟨Role.assistant, Response.str s⟩],
         [Effect.userEcho q, Effect.view (View.text s)]) := by
  simp [handleSubmission, hq, hagent, renderResponse]

/-- C6 witness: Scenario A, the agent returns the text "42" and the new
assistant turn is exactly the text "42". -/
theorem string_response_rendered_verbatim_witness :
    handleSubmission (fun _ => Except.ok (Response.str "42")) initialHistory
        (Option.some "How many rows in table orders?")
      = (initialHistory
          ++ [⟨Role.user, Response.str "How many rows in table orders?"⟩,
              ⟨Role.assistant, Response.str "42"⟩],
         [Effect.userEcho "How many rows in table orders?",
          Effect.view (View.text "42")]) :=
  string_response_rendered_verbatim initialHistory
    "How many rows in table orders?" "42"
    (fun _ => Except.ok (Response.str "42")) (by decide) rfl

/-- C7: `configure_db` opens the connection strictly read-only (the URI mode
is `ro`), and any mutating statement executed through the handle fails with
a connection-level rejection rather than succeeding silently. -/
theorem db_handle_rejects_writes (s : String) :
    configure_db.mode = "ro" ∧
    execStmt configure_db (Stmt.mutate s)
      = Except.error "attempt to write a readonly database" :=
  ⟨rfl, rfl⟩

/-- C8 (code evaluation at the failing input): when `GROQ_API_KEY` is
absent, the startup run emits the error notice once, but the script run is
then aborted by the exception raised while constructing the LLM client, so
the chat surface is never rendered; the application does not load in a
usable state. -/
theorem startup_missing_key_crashes :
    startup Option.none
      = { notices := ["GROQ_API_KEY not found in .env file"], crashed := true,
          surfaceShown := false, history := [] } ∧
    startup (Option.some "gsk_key")
      = { notices := [], crashed := false, surfaceShown := true,
          history := initialHistory } :=
  ⟨rfl, rfl⟩

/-- C9: a non-empty list response containing at least one non-tuple element
renders the "not tabular" fallback notice regardless of arities, and only
lists whose elements are all tuples can reach the tabular-grid path. -/
theorem nontuple_element_forces_fallback :
    (∀ items x, PyItem.nontup x ∈ items →
        renderResponse (Response.list items)
          = Except.ok [View.text notTabularNotice]) ∧
    (∀ items hdrs cells rest, renderResponse (Response.list items)
          = Except.ok (View.grid hdrs cells :: rest) →
        items.all PyItem.isTup = true) := by
  constructor
  · intro items x hx
    have hall : items.all PyItem.isTup = false := by
      cases hb : items.all PyItem.isTup with
      | false => rfl
      | true =>
        have := List.all_eq_true.mp hb _ hx
        simp [PyItem.isTup] at this
    simp [renderResponse, hall]
  · intro items hdrs cells rest h
    cases hc : (items.all PyItem.isTup && !items.isEmpty) with
    | true =>
      have h2 := hc
      simp only [Bool.and_eq_true] at h2
      exact h2.1
    | false => simp [renderResponse, hc] at h


/-- C9 witness: a singleton list holding a non-tuple element renders the
"not tabular" fallback. -/
theorem nontuple_element_forces_fallback_witness :
    renderResponse (Response.list [PyItem.nontup (PyVal.int 5)])
      = Except.ok [View.text notTabularNotice] :=
  nontuple_element_forces_fallback.1 [PyItem.nontup (PyVal.int 5)] (PyVal.int 5)
    (List.mem_cons_self _ _)

/-- C10: a falsy submission (no submission, or the empty string) leaves the
session state entirely unchanged: no user turn is appended, the agent is not
invoked, and no view or error notice is produced. -/
theorem falsy_submission_is_noop (agent : String → Except String Response)
    (hist : History) :
    handleSubmission agent hist Option.none = (hist, []) ∧
    handleSubmission agent hist (Option.some "") = (hist, []) :=
  ⟨rfl, rfl⟩

/-- C1 counterexample: for the malformed shape "non-empty list of tuples
with non-uniform arities" (here a one-column first row followed by a
two-column row) the rendering dispatch raises: the `pd.DataFrame` call fails
because the synthesized column count (taken from the first row) is smaller
than the inferred table width, so no fallback notice is produced and the
exception escapes to the interaction-level handler. -/
theorem render_nonuniform_raises_counterexample :
    renderResponse (Response.list [PyItem.tup [PyVal.int 1],
        PyItem.tup [PyVal.int 2, PyVal.int 3]])
      = Except.error "1 columns passed, passed data had 2 columns" := rfl

/-- C1 (amended): the rendering dispatch never raises and produces a visible
fallback notice for an empty list and for a non-string/non-list object, but
a non-empty list of tuples (non-uniform arities included) is the one shape
on which it can raise: every raised error comes from the tabular branch, so
it requires a non-empty list whose elements are all tuples. -/
theorem render_dispatch_amended_safety :
    renderResponse (Response.list []) = Except.ok [View.text notTabularNotice] ∧
    renderResponse Response.other = Except.ok [View.text unexpectedNotice] ∧
    ∀ items e, renderResponse (Response.list items) = Except.error e →
      items.all PyItem.isTup = true ∧ items ≠ [] := by
  refine ⟨rfl, rfl, ?_⟩
  intro items e h
  cases hc : (items.all PyItem.isTup && !items.isEmpty) with
  | false => simp [renderResponse, hc] at h
  | true =>
    have h2 := hc
    simp only [Bool.and_eq_true] at h2
    refine ⟨h2.1, ?_⟩
    intro hnil
    subst hnil
    exact absurd h2.2 (by decide)

/-- C1 (amended) witness: the raising input of the counterexample indeed
satisfies the characterization (non-empty, all tuples). -/
theorem render_dispatch_amended_safety_witness :
    [PyItem.tup [PyVal.int 1], PyItem.tup [PyVal.int 2, PyVal.int 3]].all
        PyItem.isTup = true ∧
    [PyItem.tup [PyVal.int 1], PyItem.tup [PyVal.int 2, PyVal.int 3]]
      ≠ ([] : List PyItem) :=
  render_dispatch_amended_safety.2.2
    [PyItem.tup [PyVal.int 1], PyItem.tup [PyVal.int 2, PyVal.int 3]]
    "1 columns passed, passed data had 2 columns" rfl

/-- C2 counterexample: a non-uniform table whose first row is the widest
does not give the "not tabular" fallback notice; the code synthesizes a
schema from the first row and renders a grid, padding the short row. -/
theorem nonuniform_renders_grid_counterexample :
    renderResponse (Response.list [PyItem.tup [PyVal.int 1, PyVal.str "a"],
        PyItem.tup [PyVal.int 2]])
      = Except.ok [View.grid ["Column 1", "Column 2"]
          [[Cell.val (PyVal.int 1), Cell.val (PyVal.str "a")],
           [Cell.val (PyVal.int 2), Cell.none]], View.balloons] ∧
    renderResponse (Response.list [PyItem.tup [PyVal.int 1, PyVal.str "a"],
        PyItem.tup [PyVal.int 2]])
      ≠ Except.ok [View.text notTabularNotice] := by
  refine ⟨rfl, ?_⟩
  intro h
  rw [show renderResponse (Response.list [PyItem.tup [PyVal.int 1, PyVal.str "a"],
      PyItem.tup [PyVal.int 2]])
    = Except.ok [View.grid ["Column 1", "Column 2"]
        [[Cell.val (PyVal.int 1), Cell.val (PyVal.str "a")],
         [Cell.val (PyVal.int 2), Cell.none]], View.balloons] from rfl] at h
  simp at h

/-- C2 (amended): an empty list renders the "not tabular" fallback notice,
but uniformity of row arities is never validated: every non-empty list
whose elements are all tuples takes the tabular path and never produces a
text fallback (it renders a grid, padded if needed, or raises). -/
theorem table_fallback_amended :
    renderResponse (Response.list []) = Except.ok [View.text notTabularNotice] ∧
    ∀ items s, items.all PyItem.isTup = true → items ≠ [] →
      renderResponse (Response.list items) ≠ Except.ok [View.text s] := by
  refine ⟨rfl, ?_⟩
  intro items s hall hne hcontra
  rcases renderResponse_tabular_shape items hall hne with ⟨hdrs, cells, h⟩ | ⟨e, h⟩
  · rw [h] at hcontra
    simp at hcontra
  · rw [h] at hcontra
    simp at hcontra

/-- C2 (amended) witness: a concrete non-empty tuple list does not render
the fallback notice. -/
theorem table_fallback_amended_witness :
    renderResponse (Response.list [PyItem.tup [PyVal.int 7]])
      ≠ Except.ok [View.text notTabularNotice] :=
  table_fallback_amended.2 [PyItem.tup [PyVal.int 7]] notTabularNotice
    (by decide) (by decide)

/-- C3: a non-empty list of tuples all of arity `k` renders a grid with
exactly the `k` synthesized headers "Column 1" … "Column k" (1-indexed, in
column order) and with the rows, in input order, holding the original
values. -/
theorem uniform_table_rendering (rows : List (List PyVal)) (k : Nat)
    (hne : rows ≠ []) (harr : ∀ r ∈ rows, r.length = k) :
    renderResponse (Response.list (rows.map PyItem.tup))
      = Except.ok [View.grid
          ((List.range k).map (fun i => "Column " ++ toString (i + 1)))
          (rows.map (fun r => r.map Cell.val)), View.balloons] := by
  have hmapne : rows.map PyItem.tup ≠ [] := by
    cases rows with
    | nil => exact absurd rfl hne
    | cons r rs => exact List.cons_ne_nil _ _
  rw [renderResponse_list_tabular _ (all_isTup_of_map_tup rows) hmapne,
    renderTable, map_fields_map_tup]
  have hhead : (rows.headD []).length = k := by
    cases rows with
    | nil => exact absurd rfl hne
    | cons r rs => exact harr r (List.mem_cons_self r rs)
  have hheaders : tableHeaders rows
      = (List.range k).map (fun i => "Column " ++ toString (i + 1)) := by
    rw [tableHeaders, hhead]
  rw [hheaders]
  have hcols : ((List.range k).map
      (fun i => "Column " ++ toString (i + 1))).length = k := by
    rw [List.length_map, List.length_range]
  have hdf : dataFrame rows
        ((List.range k).map (fun i => "Column " ++ toString (i + 1)))
      = Except.ok (rows.map (fun r => r.map Cell.val)) := by
    simp only [dataFrame, hcols, maxRowLen_const rows k hne harr, if_true,
      eq_self_iff_true]
    rw [map_padRow_exact k rows harr]
  rw [hdf]

/-- C3 witness: Scenario B, `Table([(1,"a"),(2,"b")])` renders headers
"Column 1", "Column 2" and the two rows in input order. -/
theorem uniform_table_rendering_witness :
    renderResponse (Response.list ([[PyVal.int 1, PyVal.str "a"],
        [PyVal.int 2, PyVal.str "b"]].map PyItem.tup))
      = Except.ok [View.grid
          ((List.range 2).map (fun i => "Column " ++ toString (i + 1)))
          ([[PyVal.int 1, PyVal.str "a"], [PyVal.int 2, PyVal.str "b"]].map
            (fun r => r.map Cell.val)), View.balloons] :=
  uniform_table_rendering
    [[PyVal.int 1, PyVal.str "a"], [PyVal.int 2, PyVal.str "b"]] 2
    (by decide) (by decide)

/-- C4: when the agent invocation raises, the history grows by exactly the
user turn, an inline error notice containing the exception message is shown,
and the session remains usable: a following submission is processed
normally. -/
theorem agent_exception_adds_only_user_turn (hist : History) (q msg : String)
    (agent : String → Except String Response) (hq : q ≠ "")
    (hagent : agent q = Except.error msg) :
    (handleSubmission agent hist (Option.some q)).1
      = hist ++ [⟨Role.user, Response.str q⟩] ∧
    (handleSubmission agent hist (Option.some q)).2
      = [Effect.userEcho q, Effect.errorNotice ("An error occurred: " ++ msg)] ∧
    ∀ (agent2 : String → Except String Response) (q2 s2 : String), q2 ≠ "" →
      agent2 q2 = Except.ok (Response.str s2) →
      handleSubmission agent2 ((handleSubmission agent hist (Option.some q)).1)
          (Option.some q2)
        = (hist ++ [⟨Role.user, Response.str q⟩, ⟨Role.user, Response.str q2⟩,
            ⟨Role.assistant, Response.str s2⟩],
           [Effect.userEcho q2, Effect.view (View.text s2)]) := by
  have h1 : handleSubmission agent hist (Option.some q)
      = (hist ++ [⟨Role.user, Response.str q⟩],
         [Effect.userEcho q, Effect.errorNotice ("An error occurred: " ++ msg)]) := by
    simp [handleSubmission, hq, hagent]
  refine ⟨by rw [h1], by rw [h1], ?_⟩
  intro agent2 q2 s2 hq2 hagent2
  rw [h1]
  simp [handleSubmission, hq2, hagent2, renderResponse]

/-- C4 witness: Scenario D, the agent raises "backend timeout"; the history
grows by the user turn only and the inline error notice contains the
message. -/
theorem agent_exception_adds_only_user_turn_witness :
    (handleSubmission (fun _ => Except.error "backend timeout") initialHistory
        (Option.some "list the orders")).1
      = initialHistory ++ [⟨Role.user, Response.str "list the orders"⟩] ∧
    (handleSubmission (fun _ => Except.error "backend timeout") initialHistory
        (Option.some "list the orders")).2
      = [Effect.userEcho "list the orders",
         Effect.errorNotice ("An error occurred: " ++ "backend timeout")] := by
  have h := agent_exception_adds_only_user_turn initialHistory "list the orders"
    "backend timeout" (fun _ => Except.error "backend timeout") (by decide) rfl
  exact ⟨h.1, h.2.1⟩

/-- C5 counterexample: the assistant turn is appended as soon as `agent.run`
returns, before rendering; on this response rendering then raises, the
interaction ends in an error notice, and yet the assistant turn (with the
raw list as content) is in the history — so the turn is not added "only
when the interaction succeeds end to end". -/
theorem assistant_turn_despite_render_failure_counterexample :
    (handleSubmission
        (fun _ => Except.ok (Response.list [PyItem.tup [PyVal.int 1],
          PyItem.tup [PyVal.int 2, PyVal.int 3]])) [] (Option.some "show orders")).2
      = [Effect.userEcho "show orders",
         Effect.errorNotice
           "An error occurred: 1 columns passed, passed data had 2 columns"] ∧
    (⟨Role.assistant, Response.list [PyItem.tup [PyVal.int 1],
        PyItem.tup [PyVal.int 2, PyVal.int 3]]⟩ : Msg)
      ∈ (handleSubmission
        (fun _ => Except.ok (Response.list [PyItem.tup [PyVal.int 1],
          PyItem.tup [PyVal.int 2, PyVal.int 3]])) [] (Option.some "show orders")).1 := by
  exact ⟨rfl, by decide⟩

/-- C5 (amended): the assistant turn is appended exactly when the agent
invocation succeeds, before any rendering: a failure during rendering
leaves the already-appended turn in the history and is surfaced as an error
notice scoped to the interaction. -/
theorem assistant_turn_on_agent_success (hist : History) (q : String)
    (resp : Response) (agent : String → Except String Response) (hq : q ≠ "")
    (hagent : agent q = Except.ok resp) :
    (handleSubmission agent hist (Option.some q)).1
      = hist ++ [⟨Role.user, Response.str q⟩, ⟨Role.assistant, resp⟩] ∧
    ∀ e, renderResponse resp = Except.error e →
      (handleSubmission agent hist (Option.some q)).2
        = [Effect.userEcho q, Effect.errorNotice ("An error occurred: " ++ e)] := by
  constructor
  · cases hr : renderResponse resp with
    | ok views => simp [handleSubmission, hq, hagent, hr]
    | error e => simp [handleSubmission, hq, hagent, hr]
  · intro e he
    simp [handleSubmission, hq, hagent, he]

/-- C5 (amended) witness: on a successful agent call both turns are
appended. -/
theorem assistant_turn_on_agent_success_witness :
    (handleSubmission (fun _ => Except.ok Response.other) []
        (Option.some "hello")).1
      = [] ++ [⟨Role.user, Response.str "hello"⟩,
          ⟨Role.assistant, Response.other⟩] :=
  (assistant_turn_on_agent_success [] "hello" Response.other
    (fun _ => Except.ok Response.other) (by decide) rfl).1

end SQLChat
